import Mathlib

/-
Verification of the chat client core in src/components/chat.rs: the wire
envelope codec (serde-derived on WebSocketMessage), the protocol handler
(Chat::update), the view projection (Chat::view), and the submit path.

JSON is modelled at the document level by the inductive Json below. The
text layer (serde_json parsing and printing of concrete JSON strings) is
external library code; wherever the repository's code parses a string, the
model takes the parse outcome as a parameter of type String → Option Json,
with none standing for text that is not valid JSON. The Rust unwrap calls
in chat.rs (lines 87, 102, 159) abort on failure; the model makes each
such abort an explicit Except.error Panic.panicked.
-/

namespace WebChat

/-- A JSON document, as produced by the serde_json text layer after a
successful parse. -/
inductive Json where
  | null : Json
  | bool (b : Bool) : Json
  | num (n : Int) : Json
  | str (s : String) : Json
  | arr (items : List Json) : Json
  | obj (fields : List (String × Json)) : Json

/-- Envelope kinds, chat.rs lines 20-26 (serde tags in lowercase). -/
inductive MsgTypes where
  | Users : MsgTypes
  | Register : MsgTypes
  | Message : MsgTypes
deriving DecidableEq

/-- Inner chat payload, chat.rs lines 14-18. The Rust field name from is a
Lean keyword, so it is rendered from_ here. -/
structure MessageData where
  from_ : String
  message : String
deriving DecidableEq

/-- Wire envelope, chat.rs lines 28-34 (serde camelCase field names:
messageType, dataArray, data). -/
structure WebSocketMessage where
  message_type : MsgTypes
  data_array : Option (List String)
  data : Option String
deriving DecidableEq

/-- Roster entry, chat.rs lines 36-40. -/
structure UserProfile where
  name : String
  avatar : String
deriving DecidableEq

/-- The component state relevant to the protocol handler and the view:
fields users and messages of struct Chat, chat.rs lines 42-48. The
remaining fields (input node ref, websocket handle, event-bus bridge) are
runtime handles with no protocol state. -/
structure Chat where
  users : List UserProfile
  messages : List MessageData
deriving DecidableEq

/-- Initial state built by Chat::create, chat.rs lines 75-81: empty roster,
empty message log. -/
def Chat.init : Chat := ⟨[], []⟩

/-- Avatar URL derivation, chat.rs lines 188-190. -/
def generate_avatar_for_user (user_name : String) : String :=
  "https://robohash.org/" ++ user_name ++ ".png?set=set4"

/-- First-match field lookup in a JSON object. -/
def lookupField : List (String × Json) → String → Option Json
  | [], _ => none
  | (k, v) :: rest, key => if k = key then some v else lookupField rest key

/-- Serialization of the MsgTypes tag (serde rename_all lowercase). -/
def MsgTypes.toWire : MsgTypes → String
  | .Users => "users"
  | .Register => "register"
  | .Message => "message"

/-- Deserialization of the MsgTypes tag: exact, case-sensitive match of the
three lowercase variants; anything else is an unknown variant. -/
def MsgTypes.fromWire (tag : String) : Option MsgTypes :=
  if tag = "users" then some MsgTypes.Users
  else if tag = "register" then some MsgTypes.Register
  else if tag = "message" then some MsgTypes.Message
  else none

/-- serde serialization of an Option (Vec String) field: None becomes null,
Some becomes a JSON array of strings. -/
def encodeOptList : Option (List String) → Json
  | none => Json.null
  | some xs => Json.arr (xs.map Json.str)

/-- serde serialization of an Option String field. -/
def encodeOptString : Option String → Json
  | none => Json.null
  | some s => Json.str s

/-- serde_json::to_string on a WebSocketMessage, at the document level:
an object with the three camelCase fields in declaration order. -/
def WebSocketMessage.encode (m : WebSocketMessage) : Json :=
  Json.obj [("messageType", Json.str m.message_type.toWire),
            ("dataArray", encodeOptList m.data_array),
            ("data", encodeOptString m.data)]

/-- Decode failures of the serde-derived Deserialize impls. -/
inductive DecodeError where
  | notAnObject : DecodeError
  | missingField (name : String) : DecodeError
  | invalidType (field : String) : DecodeError
  | unknownVariant (tag : String) : DecodeError
deriving DecidableEq

/-- serde deserialization of an Option String field: an absent field and
null both give none; a string gives some; any other value is a type
error. -/
def decodeOptString (field : String) : Option Json → Except DecodeError (Option String)
  | none => Except.ok none
  | some Json.null => Except.ok none
  | some (Json.str s) => Except.ok (some s)
  | some _ => Except.error (DecodeError.invalidType field)

/-- serde deserialization of a Vec String from a JSON array's items. -/
def decodeStringList (field : String) : List Json → Except DecodeError (List String)
  | [] => Except.ok []
  | Json.str s :: rest =>
    match decodeStringList field rest with
    | Except.ok r => Except.ok (s :: r)
    | Except.error e => Except.error e
  | _ :: _ => Except.error (DecodeError.invalidType field)

/-- serde deserialization of an Option (Vec String) field. -/
def decodeOptStringList (field : String) :
    Option Json → Except DecodeError (Option (List String))
  | none => Except.ok none
  | some Json.null => Except.ok none
  | some (Json.arr xs) =>
    match decodeStringList field xs with
    | Except.ok r => Except.ok (some r)
    | Except.error e => Except.error e
  | some _ => Except.error (DecodeError.invalidType field)

/-- serde_json::from_str::WebSocketMessage at the document level: the
derived Deserialize requires an object whose messageType field is one of
the three known lowercase tags; the two payload fields are optional. -/
def WebSocketMessage.decode (j : Json) : Except DecodeError WebSocketMessage :=
  match j with
  | Json.obj fields =>
    match lookupField fields "messageType" with
    | some (Json.str tag) =>
      match MsgTypes.fromWire tag with
      | some mt =>
        match decodeOptStringList "dataArray" (lookupField fields "dataArray") with
        | Except.ok da =>
          match decodeOptString "data" (lookupField fields "data") with
          | Except.ok d => Except.ok ⟨mt, da, d⟩
          | Except.error e => Except.error e
        | Except.error e => Except.error e
      | none => Except.error (DecodeError.unknownVariant tag)
    | some _ => Except.error (DecodeError.invalidType "messageType")
    | none => Except.error (DecodeError.missingField "messageType")
  | _ => Except.error DecodeError.notAnObject

/-- serde_json::from_str::MessageData at the document level: requires an
object with string fields from and message (both mandatory). -/
def MessageData.decode (j : Json) : Except DecodeError MessageData :=
  match j with
  | Json.obj fields =>
    match lookupField fields "from", lookupField fields "message" with
    | some (Json.str f), some (Json.str m) => Except.ok ⟨f, m⟩
    | some (Json.str _), some _ => Except.error (DecodeError.invalidType "message")
    | some (Json.str _), none => Except.error (DecodeError.missingField "message")
    | some _, _ => Except.error (DecodeError.invalidType "from")
    | none, _ => Except.error (DecodeError.missingField "from")
  | _ => Except.error DecodeError.notAnObject

/-- An aborted computation: a Rust unwrap that failed (panic). -/
inductive Panic where
  | panicked : Panic
deriving DecidableEq

/-- The protocol-handling arms of Chat::update on Msg::HandleMsg after the
envelope has been decoded, chat.rs lines 88-109. parse is the external
serde_json text layer, used for the inner payload of a Message envelope.
Every unwrap of the source is an explicit Panic here:
msg.data.unwrap() and serde_json::from_str(..).unwrap() at line 102. -/
def Chat.handleEnvelope (parse : String → Option Json) (c : Chat)
    (m : WebSocketMessage) : Except Panic (Chat × Bool) :=
  match m.message_type with
  | MsgTypes.Users =>
    let roster : List UserProfile :=
      (m.data_array.getD []).map (fun u => ⟨u, generate_avatar_for_user u⟩)
    Except.ok ({ c with users := roster }, true)
  | MsgTypes.Message =>
    match m.data with
    | none => Except.error Panic.panicked
    | some sd =>
      match parse sd with
      | none => Except.error Panic.panicked
      | some ij =>
        match MessageData.decode ij with
        | Except.error _ => Except.error Panic.panicked
        | Except.ok md => Except.ok ({ c with messages := c.messages ++ [md] }, true)
  | MsgTypes.Register => Except.ok (c, false)

/-- Chat::update on Msg::HandleMsg(s), chat.rs lines 86-110: the frame
string is decoded with serde_json::from_str(&s).unwrap() (line 87), so an
unparseable or unrecognized frame is a panic, then the envelope is
handled. -/
def Chat.handleFrame (parse : String → Option Json) (s : String) (c : Chat) :
    Except Panic (Chat × Bool) :=
  match parse s with
  | none => Except.error Panic.panicked
  | some j =>
    match WebSocketMessage.decode j with
    | Except.error _ => Except.error Panic.panicked
    | Except.ok m => Chat.handleEnvelope parse c m

/-- Sequential processing of inbound frames in arrival order; a panic on
any frame aborts the whole run, as in the source. -/
def processFrames (parse : String → Option Json) : List String → Chat →
    Except Panic Chat
  | [], c => Except.ok c
  | s :: rest, c =>
    match Chat.handleFrame parse s c with
    | Except.error e => Except.error e
    | Except.ok (c', _) => processFrames parse rest c'

/-- The decoded chat message an already-decoded envelope contributes to the
log: some md exactly for a Message envelope whose scalar payload parses
and decodes as MessageData. -/
def envelopeMessage (parse : String → Option Json) (m : WebSocketMessage) :
    Option MessageData :=
  match m.message_type with
  | MsgTypes.Message =>
    match m.data with
    | none => none
    | some sd =>
      match parse sd with
      | none => none
      | some ij =>
        match MessageData.decode ij with
        | Except.error _ => none
        | Except.ok md => some md
  | _ => none

/-- The chat message a frame contributes to the log: some md exactly when
the frame decodes as a Message envelope whose scalar payload decodes as
MessageData. -/
def frameMessage (parse : String → Option Json) (s : String) : Option MessageData :=
  match parse s with
  | none => none
  | some j =>
    match WebSocketMessage.decode j with
    | Except.error _ => none
    | Except.ok m => envelopeMessage parse m

/-- One rendered message entry of the view, chat.rs lines 160-174: sender
name shown from the message, avatar from the resolved roster entry, and
the body rendered as an image exactly when the gif branch is taken. -/
structure RenderedMessage where
  senderName : String
  senderAvatar : String
  asImage : Bool
  body : String
deriving DecidableEq

/-- Rust str::ends_with, the suffix test of chat.rs line 166, as a suffix
test on the character sequence (for valid UTF-8 and an ASCII pattern the
byte-suffix test of Rust coincides with the character-suffix test). -/
def ends_with (s pat : String) : Bool := pat.data.isSuffixOf s.data

/-- Rendering of one message in Chat::view, chat.rs lines 158-174: the
sender is resolved with users.iter().find(..).unwrap() (line 159), a
panic when no roster entry matches; the body is an image when
message.ends_with(".gif") (line 166). -/
def renderOne (users : List UserProfile) (m : MessageData) :
    Except Panic RenderedMessage :=
  match users.find? (fun u => u.name == m.from_) with
  | none => Except.error Panic.panicked
  | some u => Except.ok ⟨m.from_, u.avatar, ends_with m.message ".gif", m.message⟩

/-- Rendering of the message list in order; the panic of the first
unresolved sender aborts the whole render. -/
def renderList (users : List UserProfile) : List MessageData →
    Except Panic (List RenderedMessage)
  | [] => Except.ok []
  | m :: rest =>
    match renderOne users m with
    | Except.error e => Except.error e
    | Except.ok r =>
      match renderList users rest with
      | Except.error e => Except.error e
      | Except.ok rs => Except.ok (r :: rs)

/-- The message-area projection of Chat::view. -/
def Chat.viewMessages (c : Chat) : Except Panic (List RenderedMessage) :=
  renderList c.users c.messages

/-- Outcome of WebsocketService try_send. -/
inductive SendResult where
  | ok : SendResult
  | channelClosed : SendResult
deriving DecidableEq

/-- Chat::update on Msg::SubmitMessage, chat.rs lines 111-130. input is the
current value of the input element when present. The outbound envelope is
built and try_send attempted once; an Err is only logged (line 125), then
the input is cleared unconditionally (line 127). Returns the state (never
touched), the input field value after the arm, the frames handed to
try_send, and the redraw flag (false, line 129). -/
def Chat.submitMessage (c : Chat) (input : Option String) (sendResult : SendResult) :
    Chat × Option String × List Json × Bool :=
  match input, sendResult with
  | none, _ => (c, none, [], false)
  | some v, _ =>
    (c, some "", [WebSocketMessage.encode ⟨MsgTypes.Message, none, some v⟩], false)


/-- The avatar URL is never the empty string. -/
theorem generate_avatar_for_user_ne_empty (n : String) :
    generate_avatar_for_user n ≠ "" := by
  intro h
  have hlen : (generate_avatar_for_user n).length = 0 := by rw [h]; rfl
  rw [generate_avatar_for_user, String.length_append, String.length_append] at hlen
  have h1 : String.length "https://robohash.org/" = 21 := by decide
  omega

/-- Claim C9: handling an inbound envelope of kind Register leaves the
entire state unchanged and returns redraw = false (the fallthrough arm of
Chat::update, chat.rs lines 106-108). -/
theorem register_envelope_noop (parse : String → Option Json) (c : Chat)
    (da : Option (List String)) (d : Option String) :
    Chat.handleEnvelope parse c ⟨MsgTypes.Register, da, d⟩ = Except.ok (c, false) := rfl

/-- Claim C8: on submit with a present input element, a ChannelClosed send
failure is non-fatal and indistinguishable from a successful send: the
state (roster and messages) is returned unchanged, the input field is
still cleared, exactly one send is attempted (no retry), and no redraw is
requested (chat.rs lines 111-130). -/
theorem submit_channel_closed_nonfatal (c : Chat) (v : String) :
    Chat.submitMessage c (some v) SendResult.channelClosed
        = (c, some "",
           [WebSocketMessage.encode ⟨MsgTypes.Message, none, some v⟩], false)
    ∧ Chat.submitMessage c (some v) SendResult.channelClosed
        = Chat.submitMessage c (some v) SendResult.ok := ⟨rfl, rfl⟩

/-- Claim C1 is refuted by the code: with an empty roster and one message
whose sender is alice, the view projection does not degrade to a
placeholder; the unwrap on the failed roster lookup (chat.rs line 159)
panics and the whole render aborts. -/
theorem view_unknown_sender_panics :
    Chat.viewMessages ⟨[], [⟨"alice", "hi"⟩]⟩ = Except.error Panic.panicked := rfl

/-- Claim C4: a Users envelope wholesale-replaces the roster, regardless of
prior contents, with exactly one UserProfile per wire name in wire order,
each carrying a non-empty avatar URL derived from the name; a missing
payload list yields an empty roster rather than a failure; messages are
untouched and redraw = true (chat.rs lines 89-99). -/
theorem users_envelope_replaces_roster (parse : String → Option Json) (c : Chat)
    (da : Option (List String)) (d : Option String) :
    ∃ c', Chat.handleEnvelope parse c ⟨MsgTypes.Users, da, d⟩ = Except.ok (c', true)
      ∧ c'.users = (da.getD []).map (fun u => ⟨u, generate_avatar_for_user u⟩)
      ∧ c'.users.length = (da.getD []).length
      ∧ c'.users.map UserProfile.name = da.getD []
      ∧ (∀ p ∈ c'.users, p.avatar ≠ "")
      ∧ c'.messages = c.messages
      ∧ (da = none → c'.users = []) := by
  refine ⟨_, rfl, rfl, by simp, ?_, ?_, rfl, ?_⟩
  · rw [List.map_map]
    exact List.map_id (da.getD [])
  · intro p hp
    rcases List.mem_map.mp hp with ⟨u, -, rfl⟩
    exact generate_avatar_for_user_ne_empty u
  · intro h
    subst h
    rfl

/-- Claim C10: a Users envelope whose payload list repeats a name keeps the
duplicates as distinct roster entries in wire order, one UserProfile per
occurrence, with identical avatar URLs; nothing collapses to a single
entry (chat.rs lines 90-97 map over a Vec, keyed by nothing). -/
theorem users_envelope_preserves_duplicates (parse : String → Option Json)
    (c : Chat) (names : List String) (i j : Nat) (hij : i ≠ j) (n : String)
    (hi : names[i]? = some n) (hj : names[j]? = some n) :
    ∃ c', Chat.handleEnvelope parse c ⟨MsgTypes.Users, some names, none⟩
            = Except.ok (c', true)
      ∧ c'.users.length = names.length
      ∧ (∀ k : Nat, (c'.users[k]?).map UserProfile.name = names[k]?)
      ∧ ∃ p q : UserProfile, c'.users[i]? = some p ∧ c'.users[j]? = some q
          ∧ p.name = n ∧ q.name = n ∧ p.avatar = q.avatar := by
  refine ⟨_, rfl, by simp, ?_,
    ⟨n, generate_avatar_for_user n⟩, ⟨n, generate_avatar_for_user n⟩,
    ?_, ?_, rfl, rfl, rfl⟩
  · intro k
    cases h : names[k]? <;> simp [List.getElem?_map, h]
  · simp [List.getElem?_map, hi]
  · simp [List.getElem?_map, hj]

/-- Concrete instance of the duplicate-preservation theorem: the roster for
wire list [bob, alice, bob] keeps both bob entries, at positions 0 and 2,
with the same avatar. -/
theorem users_envelope_preserves_duplicates_witness :
    ∃ c', Chat.handleEnvelope (fun _ => none) Chat.init
            ⟨MsgTypes.Users, some ["bob", "alice", "bob"], none⟩
            = Except.ok (c', true)
      ∧ c'.users.length = (["bob", "alice", "bob"] : List String).length
      ∧ (∀ k : Nat, (c'.users[k]?).map UserProfile.name
            = (["bob", "alice", "bob"] : List String)[k]?)
      ∧ ∃ p q : UserProfile, c'.users[0]? = some p ∧ c'.users[2]? = some q
          ∧ p.name = "bob" ∧ q.name = "bob" ∧ p.avatar = q.avatar :=
  users_envelope_preserves_duplicates (fun _ => none) Chat.init
    ["bob", "alice", "bob"] 0 2 (by decide) "bob" rfl rfl

/-- Decoding a serialized string list recovers the list. -/
theorem decodeStringList_encode (field : String) (xs : List String) :
    decodeStringList field (xs.map Json.str) = Except.ok xs := by
  induction xs with
  | nil => rfl
  | cons x rest ih => simp [decodeStringList, ih]

/-- Claim C7: decode is a left inverse of encode on every constructible
envelope value, at the JSON document level (the text layer that prints and
reparses the document is the serde_json library, outside this
repository). -/
theorem envelope_roundtrip (m : WebSocketMessage) :
    WebSocketMessage.decode (WebSocketMessage.encode m) = Except.ok m := by
  obtain ⟨mt, da, d⟩ := m
  cases mt <;> cases da <;> cases d <;>
    simp [WebSocketMessage.encode, WebSocketMessage.decode, MsgTypes.toWire,
      MsgTypes.fromWire, lookupField, encodeOptList, encodeOptString,
      decodeOptStringList, decodeOptString, decodeStringList_encode]

/-- Claim C2 is refuted by the code: a frame that is not valid JSON, and
likewise a frame whose messageType tag is unrecognized, does not yield a
recoverable MalformedEnvelope or UnknownMessageKind failure; the unwrap on
serde_json::from_str (chat.rs line 87) panics, terminating the session, so
no subsequent frame is processed by this handler at all. -/
theorem malformed_frame_panics (parse : String → Option Json) (c : Chat)
    (s t : String) (hs : parse s = none)
    (ht : parse t = some (Json.obj [("messageType", Json.str "bogus")])) :
    Chat.handleFrame parse s c = Except.error Panic.panicked
    ∧ Chat.handleFrame parse t c = Except.error Panic.panicked := by
  constructor
  · simp [Chat.handleFrame, hs]
  · simp [Chat.handleFrame, ht, WebSocketMessage.decode, lookupField,
      MsgTypes.fromWire]

/-- A tiny stand-in for the serde_json text layer: one unrecognized-tag
document under the key frame-bogus; everything else is not valid JSON. -/
def demoParseC2 : String → Option Json := fun x =>
  if x = "frame-bogus" then some (Json.obj [("messageType", Json.str "bogus")])
  else none

/-- Concrete instance: the literal frame text of the malformed-frame
scenario panics the handler, and so does an unknown-kind frame. -/
theorem malformed_frame_panics_witness :
    Chat.handleFrame demoParseC2 "\x7bnot json" Chat.init
        = Except.error Panic.panicked
    ∧ Chat.handleFrame demoParseC2 "frame-bogus" Chat.init
        = Except.error Panic.panicked :=
  malformed_frame_panics demoParseC2 Chat.init "\x7bnot json" "frame-bogus" rfl rfl

/-- Claim C3 is refuted by the code: a Message envelope whose scalar
payload is absent, is not valid JSON, or fails to decode as the inner
from/message shape does not yield a recoverable MalformedMessagePayload
failure with the message dropped; the unwraps at chat.rs line 102 panic,
aborting the whole session. -/
theorem malformed_payload_panics (parse : String → Option Json) (c : Chat)
    (s : String) (e : DecodeError)
    (h : parse s = none
         ∨ ∃ ij, parse s = some ij ∧ MessageData.decode ij = Except.error e) :
    Chat.handleEnvelope parse c ⟨MsgTypes.Message, none, some s⟩
        = Except.error Panic.panicked
    ∧ Chat.handleEnvelope parse c ⟨MsgTypes.Message, none, none⟩
        = Except.error Panic.panicked := by
  refine ⟨?_, rfl⟩
  rcases h with h | ⟨ij, hp, hd⟩
  · simp [Chat.handleEnvelope, h]
  · simp [Chat.handleEnvelope, hp, hd]

/-- A tiny stand-in for the serde_json text layer: the key inner-bad maps
to a document whose from field is a number, so MessageData decoding
fails. -/
def demoParseC3 : String → Option Json := fun x =>
  if x = "inner-bad" then some (Json.obj [("from", Json.num 1)]) else none

/-- Concrete instance: a Message envelope whose inner payload fails the
from/message shape panics the handler, as does an absent payload. -/
theorem malformed_payload_panics_witness :
    Chat.handleEnvelope demoParseC3 Chat.init
        ⟨MsgTypes.Message, none, some "inner-bad"⟩ = Except.error Panic.panicked
    ∧ Chat.handleEnvelope demoParseC3 Chat.init
        ⟨MsgTypes.Message, none, none⟩ = Except.error Panic.panicked :=
  malformed_payload_panics demoParseC3 Chat.init "inner-bad"
    (DecodeError.invalidType "from") (Or.inr ⟨_, rfl, rfl⟩)

/-- Handling one decoded envelope only ever appends to the message log:
the log after is the log before followed by the envelope's decoded chat
payload, if any. -/
theorem handleEnvelope_messages_eq (parse : String → Option Json) (c c' : Chat)
    (m : WebSocketMessage) (b : Bool)
    (h : Chat.handleEnvelope parse c m = Except.ok (c', b)) :
    c'.messages = c.messages ++ (envelopeMessage parse m).toList := by
  obtain ⟨mt, da, d⟩ := m
  cases mt with
  | Users =>
    simp only [Chat.handleEnvelope, Except.ok.injEq, Prod.mk.injEq] at h
    obtain ⟨hc, -⟩ := h
    subst hc
    simp [envelopeMessage]
  | Register =>
    simp only [Chat.handleEnvelope, Except.ok.injEq, Prod.mk.injEq] at h
    obtain ⟨hc, -⟩ := h
    subst hc
    simp [envelopeMessage]
  | Message =>
    cases d with
    | none => simp [Chat.handleEnvelope] at h
    | some sd =>
      cases hp : parse sd with
      | none => simp [Chat.handleEnvelope, hp] at h
      | some ij =>
        cases hd : MessageData.decode ij with
        | error e => simp [Chat.handleEnvelope, hp, hd] at h
        | ok md =>
          simp only [Chat.handleEnvelope, hp, hd, Except.ok.injEq,
            Prod.mk.injEq] at h
          obtain ⟨hc, -⟩ := h
          subst hc
          simp [envelopeMessage, hp, hd]

/-- Handling one raw frame only ever appends to the message log. -/
theorem handleFrame_messages_eq (parse : String → Option Json) (s : String)
    (c c' : Chat) (b : Bool)
    (h : Chat.handleFrame parse s c = Except.ok (c', b)) :
    c'.messages = c.messages ++ (frameMessage parse s).toList := by
  cases hp : parse s with
  | none => simp [Chat.handleFrame, hp] at h
  | some j =>
    cases hd : WebSocketMessage.decode j with
    | error e => simp [Chat.handleFrame, hp, hd] at h
    | ok m =>
      simp only [Chat.handleFrame, hp, hd] at h
      simp only [frameMessage, hp, hd]
      exact handleEnvelope_messages_eq parse c c' m b h

/-- Claim C5: the message log is append-only. Over any successfully
processed frame sequence, the final log is the initial log followed by the
decoded payloads of the Message envelopes in arrival order — existing
entries are never modified, removed, or capped — and its length grows by
exactly the number of successfully decoded Message envelopes. -/
theorem messages_append_only (parse : String → Option Json)
    (frames : List String) (c c' : Chat)
    (h : processFrames parse frames c = Except.ok c') :
    c'.messages = c.messages ++ frames.filterMap (frameMessage parse)
    ∧ c'.messages.length
        = c.messages.length + (frames.filterMap (frameMessage parse)).length := by
  suffices hmain :
      c'.messages = c.messages ++ frames.filterMap (frameMessage parse) by
    exact ⟨hmain, by rw [hmain, List.length_append]⟩
  induction frames generalizing c with
  | nil =>
    simp only [processFrames, Except.ok.injEq] at h
    subst h
    simp
  | cons s rest ih =>
    cases hf : Chat.handleFrame parse s c with
    | error e => simp [processFrames, hf] at h
    | ok p =>
      obtain ⟨c1, b⟩ := p
      simp only [processFrames, hf] at h
      have h1 := handleFrame_messages_eq parse s c c1 b hf
      have h2 := ih c1 h
      rw [h2, h1, List.filterMap_cons]
      cases hm : frameMessage parse s <;> simp [hm]

/-- A tiny stand-in for the serde_json text layer for the append-only
scenario: a users frame carrying [alice], a message frame whose scalar
payload is the key inner-hello, and the inner document from alice saying
hello. -/
def demoParseC5 : String → Option Json := fun x =>
  if x = "frame-users" then
    some (Json.obj [("messageType", Json.str "users"),
                    ("dataArray", Json.arr [Json.str "alice"]),
                    ("data", Json.null)])
  else if x = "frame-message" then
    some (Json.obj [("messageType", Json.str "message"),
                    ("data", Json.str "inner-hello")])
  else if x = "inner-hello" then
    some (Json.obj [("from", Json.str "alice"), ("message", Json.str "hello")])
  else none

/-- Concrete instance of the append-only theorem on a users frame followed
by a message frame, starting from the initial state. -/
theorem messages_append_only_witness :
    (⟨[⟨"alice", generate_avatar_for_user "alice"⟩],
      [⟨"alice", "hello"⟩]⟩ : Chat).messages
        = Chat.init.messages
          ++ (["frame-users", "frame-message"].filterMap (frameMessage demoParseC5))
    ∧ (⟨[⟨"alice", generate_avatar_for_user "alice"⟩],
        [⟨"alice", "hello"⟩]⟩ : Chat).messages.length
        = Chat.init.messages.length
          + ((["frame-users", "frame-message"].filterMap
              (frameMessage demoParseC5))).length :=
  messages_append_only demoParseC5 ["frame-users", "frame-message"] Chat.init
    ⟨[⟨"alice", generate_avatar_for_user "alice"⟩], [⟨"alice", "hello"⟩]⟩
    (by rfl)

/-- Every successfully rendered message has its image flag equal to the
gif suffix test on its body. -/
theorem renderList_gif (users : List UserProfile) (msgs : List MessageData)
    (rs : List RenderedMessage) (h : renderList users msgs = Except.ok rs) :
    ∀ r ∈ rs, r.asImage = ends_with r.body ".gif" := by
  induction msgs generalizing rs with
  | nil =>
    simp only [renderList, Except.ok.injEq] at h
    subst h
    simp
  | cons m rest ih =>
    cases ho : renderOne users m with
    | error e => simp [renderList, ho] at h
    | ok r0 =>
      cases hr : renderList users rest with
      | error e => simp [renderList, ho, hr] at h
      | ok rs0 =>
        simp only [renderList, ho, hr, Except.ok.injEq] at h
        subst h
        intro r hmem
        rcases List.mem_cons.mp hmem with rfl | hmem'
        · cases hf : users.find? (fun u => u.name == m.from_) with
          | none => simp [renderOne, hf] at ho
          | some u =>
            simp only [renderOne, hf, Except.ok.injEq] at ho
            subst ho
            rfl
        · exact ih rs0 hr r hmem'

/-- Claim C6: a message body is rendered as an image exactly when it ends
with the literal suffix .gif, under a case-sensitive exact-suffix test with
no MIME sniffing (chat.rs line 166); in particular a body ending in .gif
renders as an image and one ending in .gif.txt renders as text. -/
theorem gif_suffix_rendering (c : Chat) (rs : List RenderedMessage)
    (h : Chat.viewMessages c = Except.ok rs) :
    (∀ r ∈ rs, r.asImage = ends_with r.body ".gif")
    ∧ ends_with "https://x.test/a.gif" ".gif" = true
    ∧ ends_with "https://x.test/a.gif.txt" ".gif" = false :=
  ⟨renderList_gif c.users c.messages rs h, by decide, by decide⟩

/-- Concrete instance of the gif rendering theorem: alice sends a .gif
body (rendered as an image) and a .gif.txt body (rendered as text). -/
theorem gif_suffix_rendering_witness :
    (∀ r ∈ ([⟨"alice", generate_avatar_for_user "alice", true,
              "https://x.test/a.gif"⟩,
             ⟨"alice", generate_avatar_for_user "alice", false,
              "https://x.test/a.gif.txt"⟩] : List RenderedMessage),
        r.asImage = ends_with r.body ".gif")
    ∧ ends_with "https://x.test/a.gif" ".gif" = true
    ∧ ends_with "https://x.test/a.gif.txt" ".gif" = false :=
  gif_suffix_rendering
    ⟨[⟨"alice", generate_avatar_for_user "alice"⟩],
     [⟨"alice", "https://x.test/a.gif"⟩, ⟨"alice", "https://x.test/a.gif.txt"⟩]⟩
    [⟨"alice", generate_avatar_for_user "alice", true, "https://x.test/a.gif"⟩,
     ⟨"alice", generate_avatar_for_user "alice", false,
      "https://x.test/a.gif.txt"⟩]
    (by rfl)

end WebChat
